import Mathlib

/-!
Verification of `fetch_bathymetry.py` (duncangeere/oresund).

The script fetches a bathymetry raster over a fixed bounding box, upsamples
it, filters GSHHG land polygons by a bounding-box overlap predicate, masks
land cells out of the raster with `rasterio.mask.mask` (invert=True,
crop left at its default False), and emits GeoJSON layers.  Coordinates are
modelled as rationals, rasters as width/height/affine-transform/sample
function records, and the two external raster library calls used by the
script (`rasterio.transform.from_bounds` and `rasterio.mask.mask`) are
embedded with their documented input/output behaviour at the argument
values the script passes.
-/

set_option autoImplicit false

/-- A geographic coordinate pair `(lon, lat)` in degrees. -/
abbrev Coord := ℚ × ℚ

/-- GeoJSON geometry as consumed by `_overlaps_bbox`: a point, a polygon
(list of linear rings, each a closed list of vertices), or a multipolygon. -/
inductive Geometry where
  | point : Coord → Geometry
  | polygon : List (List Coord) → Geometry
  | multiPolygon : List (List (List Coord)) → Geometry
deriving DecidableEq, Repr

/-- The `coords` list accumulated by `_overlaps_bbox`: all ring vertices of a
Polygon or MultiPolygon.  Any other geometry type (a Point in particular)
falls through both `if` branches and leaves `coords` empty. -/
def geomCoords : Geometry → List Coord
  | .point _ => []
  | .polygon rings => rings.flatten
  | .multiPolygon polys => (polys.map List.flatten).flatten

/-- Python's `max` over a non-empty list (the `[]` value is never used by
callers: `_overlaps_bbox` guards with `if not coords: return False`). -/
def listMax : List ℚ → ℚ
  | [] => 0
  | x :: xs => xs.foldl max x

/-- Python's `min` over a non-empty list. -/
def listMin : List ℚ → ℚ
  | [] => 0
  | x :: xs => xs.foldl min x

/-- `_overlaps_bbox(geom, min_lon, min_lat, max_lon, max_lat)`:
collect ring vertices, return `False` on an empty vertex list, otherwise
compare the vertex bounding box against the target box. -/
def overlaps_bbox (geom : Geometry)
    (min_lon min_lat max_lon max_lat : ℚ) : Bool :=
  let coords := geomCoords geom
  if coords = [] then
    false
  else
    let lons := coords.map Prod.fst
    let lats := coords.map Prod.snd
    decide (listMax lons ≥ min_lon ∧ listMin lons ≤ max_lon
      ∧ listMax lats ≥ min_lat ∧ listMin lats ≤ max_lat)

/-- The inline point filter of step 4 of `main`:
`min_lon <= lon <= max_lon and min_lat <= lat <= max_lat`. -/
def placeInBbox (lon lat min_lon min_lat max_lon max_lat : ℚ) : Bool :=
  decide (min_lon ≤ lon ∧ lon ≤ max_lon ∧ min_lat ≤ lat ∧ lat ≤ max_lat)

/-- A six-parameter affine transform in the rasterio convention:
`(col, row) ↦ (a*col + b*row + c, d*col + e*row + f)`. -/
structure Affine where
  a : ℚ
  b : ℚ
  c : ℚ
  d : ℚ
  e : ℚ
  f : ℚ
deriving DecidableEq, Repr

/-- Apply an affine transform to fractional pixel coordinates `(col, row)`. -/
def applyAffine (t : Affine) (col row : ℚ) : Coord :=
  (t.a * col + t.b * row + t.c, t.d * col + t.e * row + t.f)

/-- `rasterio.transform.from_bounds(west, south, east, north, width, height)`:
origin at the north-west corner, pixel width `(east-west)/width`, pixel
height `(south-north)/height` (negative), no rotation. -/
def from_bounds (west south east north : ℚ) (width height : ℕ) : Affine :=
  { a := (east - west) / (width : ℚ), b := 0, c := west,
    d := 0, e := (south - north) / (height : ℚ), f := north }

/-- The script's nodata sentinel `NODATA = -9999.0`. -/
def NODATA : ℚ := -9999

/-- A single-band raster: dimensions, georeferencing transform, the band as a
function from (row, col) to the sample value, and the metadata nodata entry. -/
structure Raster where
  width : ℕ
  height : ℕ
  transform : Affine
  data : ℕ → ℕ → ℚ
  nodata : Option ℚ

/-- Does the edge `a→b` cross the leftward horizontal ray from `p`?  The
standard even-odd crossing rule, with the crossing abscissa computed by
linear interpolation (the guard makes the denominator nonzero whenever the
edge is counted). -/
def edgeCrosses (p a b : Coord) : Bool :=
  (decide (a.2 > p.2) != decide (b.2 > p.2)) &&
    decide (p.1 < a.1 + (b.1 - a.1) * (p.2 - a.2) / (b.2 - a.2))

/-- Consecutive vertex pairs of a ring (rings arrive closed, first = last). -/
def ringEdges (ring : List Coord) : List (Coord × Coord) :=
  ring.zip ring.tail

/-- Even-odd containment of a point in one linear ring. -/
def pointInRing (p : Coord) (ring : List Coord) : Bool :=
  ((ringEdges ring).countP (fun e => edgeCrosses p e.1 e.2)) % 2 == 1

/-- Even-odd containment across the rings of one polygon (a point inside the
exterior ring and inside a hole ring is outside). -/
def pointInRings (p : Coord) (rings : List (List Coord)) : Bool :=
  (rings.countP (fun ring => pointInRing p ring)) % 2 == 1

/-- Is the point inside the geometry?  This is the per-shape containment test
underlying polygon rasterization at cell centers; Point geometries have no
interior. -/
def pointInGeom (p : Coord) : Geometry → Bool
  | .point _ => false
  | .polygon rings => pointInRings p rings
  | .multiPolygon polys => polys.any (fun rings => pointInRings p rings)

/-- The geographic center of cell `(row, col)`: the transform applied to the
half-integer pixel coordinate `(col + 1/2, row + 1/2)`. -/
def cellCenter (t : Affine) (row col : ℕ) : Coord :=
  applyAffine t ((col : ℚ) + 1/2) ((row : ℚ) + 1/2)

/-- Failure modes of the masking call.  `valueError` models the ValueError
`rasterio.mask.mask` raises on an empty shapes list — it fails while
computing the geometry window over the empty bounds sequence, before any
rasterization; only the error class is modelled here, not its message or
exact origin.  `emptyPolygonSet` renders the spec's `EmptyPolygonSetError`
taxonomy so that statements about it can be written — the script defines
and raises no such error. -/
inductive MaskErr where
  | valueError : MaskErr
  | emptyPolygonSet : MaskErr
deriving DecidableEq, Repr

/-- Does the cell hold the input raster's declared nodata value?
`rasterio.mask.mask` reads the band with its mask, so such cells are masked
before the shape mask is ORed in (a raster with no declared nodata masks
nothing on read). -/
def isDeclaredNodata (r : Raster) (row col : ℕ) : Bool :=
  match r.nodata with
  | some nd => decide (r.data row col = nd)
  | none => false

/-- `rasterio.mask.mask(ds, shapes, invert=True, nodata=NODATA, filled=True)`
with `crop` left at its default `False`, as called in step 3 of `main`:
raises on an empty shape list; otherwise it reads the band masked (cells
equal to the dataset's declared nodata are masked), ORs in the rasterized
shape mask (invert=True: cells whose center falls inside some shape), and —
`filled=True` — fills every masked cell with `nodata`.  Every unmasked cell
keeps its source value, and the grid (width, height, transform) is
unchanged. -/
def rio_mask (r : Raster) (shapes : List Geometry) (nodata : ℚ) :
    Except MaskErr Raster :=
  if shapes = [] then
    .error .valueError
  else
    .ok { r with
      data := fun row col =>
        if (shapes.any fun g => pointInGeom (cellCenter r.transform row col) g)
            || isDeclaredNodata r row col then
          nodata
        else r.data row col,
      nodata := some nodata }

/-- The four corner coordinates of a `w × h` grid under a transform. -/
def gridCorners (w h : ℕ) (t : Affine) : List Coord :=
  [applyAffine t 0 0, applyAffine t (w : ℚ) 0,
   applyAffine t 0 (h : ℚ), applyAffine t (w : ℚ) (h : ℚ)]

/-- The corner coordinates of a raster's own grid. -/
def rasterCorners (r : Raster) : List Coord :=
  gridCorners r.width r.height r.transform

/-- A GeoJSON land feature as built in step 2 of `main`: the geometry wrapped
with an empty property mapping. -/
structure LandFeature where
  geometry : Geometry
deriving DecidableEq, Repr

/-- Step 2 of `main`: one pass over the GSHHG features.  A feature whose
geometry overlaps the bbox is appended, in the same iteration, both to
`land_shapes` (later passed to the masking call) and, wrapped as a feature,
to `land_geojson_features` (serialized to the land output file). -/
def clipLand (feats : List Geometry) (min_lon min_lat max_lon max_lat : ℚ) :
    List Geometry × List LandFeature :=
  match feats with
  | [] => ([], [])
  | g :: gs =>
      let rest := clipLand gs min_lon min_lat max_lon max_lat
      if overlaps_bbox g min_lon min_lat max_lon max_lat then
        (g :: rest.1, ⟨g⟩ :: rest.2)
      else rest

/-- A GeoJSON property value: shapefile attributes are strings or numbers,
and `dict.get` yields `None` for a missing key. -/
inductive PropValue where
  | str : String → PropValue
  | int : Int → PropValue
  | null : PropValue
deriving DecidableEq, Repr

/-- Lift an optional string attribute to a property value. -/
def optStr : Option String → PropValue
  | some s => .str s
  | none => .null

/-- Lift an optional integer attribute to a property value. -/
def optInt : Option Int → PropValue
  | some n => .int n
  | none => .null

/-- A Natural Earth populated-places source record: the point coordinate and
the attributes `main` reads from `feat.properties`. -/
structure NEFeature where
  lon : ℚ
  lat : ℚ
  name : Option String
  pop_max : Option Int
  pop_min : Option Int
  adm0_a3 : Option String
  featurecla : Option String
  scalerank : Option Int
deriving DecidableEq, Repr

/-- An emitted populated-places feature: point geometry plus the property
mapping in insertion order. -/
structure PlaceFeature where
  lon : ℚ
  lat : ℚ
  properties : List (String × PropValue)
deriving DecidableEq, Repr

/-- The property dict literal of step 4 of `main`, key order as written. -/
def placeProperties (f : NEFeature) : List (String × PropValue) :=
  [("name", optStr f.name),
   ("pop_max", optInt f.pop_max),
   ("pop_min", optInt f.pop_min),
   ("adm0_a3", optStr f.adm0_a3),
   ("featurecla", optStr f.featurecla),
   ("scalerank", optInt f.scalerank)]

/-- Step 4 of `main`: keep the features whose point lies in the bbox
(boundaries inclusive) and wrap each with the fixed property schema. -/
def buildPlaces (min_lon min_lat max_lon max_lat : ℚ)
    (feats : List NEFeature) : List PlaceFeature :=
  (feats.filter (fun f => placeInBbox f.lon f.lat min_lon min_lat max_lon max_lat)).map
    (fun f => { lon := f.lon, lat := f.lat, properties := placeProperties f })

/-- The WCS HTTP response as `main` inspects it: status code, the
`Content-Type` header, and the body text. -/
structure HttpResponse where
  status : ℕ
  contentType : String
  body : String
deriving DecidableEq, Repr

/-- `"xml" in content_type.lower()`: case-insensitive substring test. -/
def containsXml (contentType : String) : Bool :=
  (contentType.toLower.data.tails).any (fun t => "xml".data.isPrefixOf t)

/-- The error condition of the WCS check:
`r.status_code != 200 or "xml" in content_type.lower()`. -/
def wcsFailed (r : HttpResponse) : Bool :=
  decide (r.status ≠ 200) || containsXml r.contentType

/-- The message passed to `sys.exit`:
`f"WCS error (HTTP {r.status_code}):\n{r.text[:500]}"`. -/
def wcsErrorMsg (r : HttpResponse) : String :=
  "WCS error (HTTP " ++ toString r.status ++ "):\n" ++ r.body.take 500

/-- An output artifact written by `main`, identified by file name. -/
inductive OutputEvent where
  | writeRaster : String → OutputEvent
  | writeVector : String → OutputEvent
deriving DecidableEq, Repr

/-- Output file names (basenames of the `data/` paths). -/
def TIFF_OUT : String := "oresund_bathymetry.tif"

/-- The masked-raster output file name. -/
def TIFF_SEA_OUT : String := "oresund_bathymetry_sea.tif"

/-- The clipped-land output file name. -/
def LAND_OUT : String := "oresund_land.geojson"

/-- The populated-places output file name. -/
def PLACES_OUT : String := "oresund_populated_places.geojson"

/-- The observable outcome of one run: the process exit code, the one-line
message passed to `sys.exit` if the run aborted that way (an uncaught
library exception prints a traceback instead and carries no such message),
and the output files written, in order. -/
structure RunTrace where
  exitCode : ℕ
  diagnostic : Option String
  outputs : List OutputEvent
deriving DecidableEq, Repr

/-- Numpy's `isclose` test against the sentinel, with its default tolerances
(`rtol = 1e-5`, `atol = 1e-8`): `|x - NODATA| ≤ atol + rtol * |NODATA|`.
Used by the summary step to select sea cells (NaN does not arise in the
rational model). -/
def isCloseNodata (x : ℚ) : Bool :=
  decide (|x - NODATA| ≤ 1/100000000 + (1/100000) * 9999)

/-- Does the masked raster contain at least one sea cell (a cell not close
to the nodata sentinel)?  The summary step's `sea.min()` raises a ValueError
on an empty selection, aborting the run after all outputs are written. -/
def hasSeaCell (r : Raster) : Bool :=
  (List.range r.height).any fun row =>
    (List.range r.width).any fun col => !isCloseNodata (r.data row col)

/-- The sequential behaviour of `main` from the WCS response onward, over the
data the external collaborators supply: the WCS error check exits (via
`sys.exit`, code 1) before any output is written; otherwise the resampled
raster is written, the land subset is clipped and written, the masking call
runs (its uncaught library error aborts the run, exit code 1 and a
traceback rather than a one-line diagnostic, after the first two writes),
and on success the masked raster and the populated-places layer are written
and the summary statistics run last — the summary itself aborts the run
(uncaught ValueError from `min()` of an empty selection, again a traceback)
when no cell of the masked raster is left off-sentinel. -/
def mainRun (resp : HttpResponse) (working : Raster)
    (gshhg : List Geometry) (_pl : List NEFeature)
    (min_lon min_lat max_lon max_lat : ℚ) : RunTrace :=
  if wcsFailed resp then
    { exitCode := 1, diagnostic := some (wcsErrorMsg resp), outputs := [] }
  else
    let land := clipLand gshhg min_lon min_lat max_lon max_lat
    match rio_mask working land.1 NODATA with
    | .error _ =>
        { exitCode := 1, diagnostic := none,
          outputs := [.writeRaster TIFF_OUT, .writeVector LAND_OUT] }
    | .ok sea =>
        { exitCode := if hasSeaCell sea then 0 else 1, diagnostic := none,
          outputs := [.writeRaster TIFF_OUT, .writeVector LAND_OUT,
            .writeRaster TIFF_SEA_OUT, .writeVector PLACES_OUT] }

/-- The script's bounding box `11.95,54.90,13.35,56.50`: west edge. -/
def BBOX_MIN_LON : ℚ := 1195/100

/-- South edge of the script's bounding box. -/
def BBOX_MIN_LAT : ℚ := 549/10

/-- East edge of the script's bounding box. -/
def BBOX_MAX_LON : ℚ := 1335/100

/-- North edge of the script's bounding box. -/
def BBOX_MAX_LAT : ℚ := 565/10

/-- The script's output raster width (A3 portrait at 150 dpi). -/
def WIDTH : ℕ := 3508

/-- The script's output raster height. -/
def HEIGHT : ℕ := 4009

/-- Concrete test transform: a 2 × 2 grid spanning (0,0)–(4,4). -/
def sampleTransform : Affine := from_bounds 0 0 4 4 2 2

/-- Concrete test raster: constant depth 10 on the 2 × 2 grid. -/
def sampleRaster : Raster :=
  { width := 2, height := 2, transform := sampleTransform,
    data := fun _ _ => 10, nodata := some NODATA }

/-- A closed square ring covering the left half (lon < 2) of the test grid. -/
def leftHalfRing : List Coord := [(0, 0), (2, 0), (2, 4), (0, 4), (0, 0)]

/-- The left-half square as a polygon geometry. -/
def leftHalfPoly : Geometry := .polygon [leftHalfRing]

/-- The one-polygon shape list used as a concrete masking input. -/
def sampleShapes : List Geometry := [leftHalfPoly]

/-- The raster `rio_mask` returns on the concrete masking input. -/
def sampleMasked : Raster :=
  { sampleRaster with
    data := fun row col =>
      if (sampleShapes.any fun g =>
            pointInGeom (cellCenter sampleRaster.transform row col) g)
          || isDeclaredNodata sampleRaster row col then
        NODATA
      else sampleRaster.data row col,
    nodata := some NODATA }

/-- A concrete raster whose declared nodata is 7 (not the sentinel) and all
of whose cells hold that declared nodata value. -/
def nodataRaster : Raster :=
  { width := 2, height := 2, transform := sampleTransform,
    data := fun _ _ => 7, nodata := some 7 }

/-- The raster the masking call returns on `nodataRaster`. -/
def nodataMasked : Raster :=
  { nodataRaster with
    data := fun row col =>
      if (sampleShapes.any fun g =>
            pointInGeom (cellCenter nodataRaster.transform row col) g)
          || isDeclaredNodata nodataRaster row col then
        NODATA
      else nodataRaster.data row col,
    nodata := some NODATA }

/-- A concrete error response from the coverage service. -/
def respXml : HttpResponse :=
  { status := 404, contentType := "application/xml", body := "ServiceException" }

/-- A concrete Natural Earth record inside the bounding box. -/
def sampleNE : NEFeature :=
  { lon := 1257/100, lat := 5568/100, name := some "Copenhagen",
    pop_max := some 1153615, pop_min := some 1086762,
    adm0_a3 := some "DNK", featurecla := some "Admin-0 capital",
    scalerank := some 0 }

/-- The emitted feature `buildPlaces` produces from `sampleNE`. -/
def samplePlace : PlaceFeature :=
  { lon := sampleNE.lon, lat := sampleNE.lat,
    properties := placeProperties sampleNE }

theorem le_foldl_max (xs : List ℚ) (x a : ℚ) :
    a ≤ xs.foldl max x ↔ a ≤ x ∨ ∃ y ∈ xs, a ≤ y := by
  induction xs generalizing x with
  | nil => simp
  | cons z zs ih =>
      simp only [List.foldl_cons, ih, le_max_iff, List.mem_cons]
      constructor
      · rintro ((h | h) | ⟨y, hy, h⟩)
        · exact Or.inl h
        · exact Or.inr ⟨z, Or.inl rfl, h⟩
        · exact Or.inr ⟨y, Or.inr hy, h⟩
      · rintro (h | ⟨y, (rfl | hy), h⟩)
        · exact Or.inl (Or.inl h)
        · exact Or.inl (Or.inr h)
        · exact Or.inr ⟨y, hy, h⟩

theorem foldl_min_le (xs : List ℚ) (x a : ℚ) :
    xs.foldl min x ≤ a ↔ x ≤ a ∨ ∃ y ∈ xs, y ≤ a := by
  induction xs generalizing x with
  | nil => simp
  | cons z zs ih =>
      simp only [List.foldl_cons, ih, min_le_iff, List.mem_cons]
      constructor
      · rintro ((h | h) | ⟨y, hy, h⟩)
        · exact Or.inl h
        · exact Or.inr ⟨z, Or.inl rfl, h⟩
        · exact Or.inr ⟨y, Or.inr hy, h⟩
      · rintro (h | ⟨y, (rfl | hy), h⟩)
        · exact Or.inl (Or.inl h)
        · exact Or.inl (Or.inr h)
        · exact Or.inr ⟨y, hy, h⟩

theorem le_listMax_iff (xs : List ℚ) (a : ℚ) (h : xs ≠ []) :
    a ≤ listMax xs ↔ ∃ y ∈ xs, a ≤ y := by
  cases xs with
  | nil => exact absurd rfl h
  | cons x xs =>
      simp only [listMax, le_foldl_max, List.mem_cons]
      constructor
      · rintro (ha | ⟨y, hy, ha⟩)
        · exact ⟨x, Or.inl rfl, ha⟩
        · exact ⟨y, Or.inr hy, ha⟩
      · rintro ⟨y, (rfl | hy), ha⟩
        · exact Or.inl ha
        · exact Or.inr ⟨y, hy, ha⟩

theorem listMin_le_iff (xs : List ℚ) (a : ℚ) (h : xs ≠ []) :
    listMin xs ≤ a ↔ ∃ y ∈ xs, y ≤ a := by
  cases xs with
  | nil => exact absurd rfl h
  | cons x xs =>
      simp only [listMin, foldl_min_le, List.mem_cons]
      constructor
      · rintro (ha | ⟨y, hy, ha⟩)
        · exact ⟨x, Or.inl rfl, ha⟩
        · exact ⟨y, Or.inr hy, ha⟩
      · rintro ⟨y, (rfl | hy), ha⟩
        · exact Or.inl ha
        · exact Or.inr ⟨y, hy, ha⟩

/-- Claim C2: for every geometry, `_overlaps_bbox` returns true iff the
geometry has at least one vertex and the geometry's axis-aligned vertex
bounding box intersects the target box — phrased without the code's folds:
some vertex has longitude ≥ min_lon (i.e. max lon ≥ min_lon), some vertex
has longitude ≤ max_lon (min lon ≤ max_lon), and likewise in latitude.
In particular a geometry with zero vertices yields false. -/
theorem overlaps_bbox_iff_aabb_intersects (g : Geometry)
    (min_lon min_lat max_lon max_lat : ℚ) :
    overlaps_bbox g min_lon min_lat max_lon max_lat = true ↔
      geomCoords g ≠ [] ∧
      (∃ p ∈ geomCoords g, min_lon ≤ p.1) ∧
      (∃ p ∈ geomCoords g, p.1 ≤ max_lon) ∧
      (∃ p ∈ geomCoords g, min_lat ≤ p.2) ∧
      (∃ p ∈ geomCoords g, p.2 ≤ max_lat) := by
  unfold overlaps_bbox
  by_cases h : geomCoords g = []
  · simp [h]
  · have hlons : (geomCoords g).map Prod.fst ≠ [] := by
      simpa using h
    have hlats : (geomCoords g).map Prod.snd ≠ [] := by
      simpa using h
    simp only [h, if_false, decide_eq_true_eq, ge_iff_le,
      le_listMax_iff _ _ hlons, listMin_le_iff _ _ hlons,
      le_listMax_iff _ _ hlats, listMin_le_iff _ _ hlats,
      List.mem_map]
    constructor
    · rintro ⟨⟨y₁, ⟨p₁, hp₁, rfl⟩, h₁⟩, ⟨y₂, ⟨p₂, hp₂, rfl⟩, h₂⟩,
        ⟨y₃, ⟨p₃, hp₃, rfl⟩, h₃⟩, ⟨y₄, ⟨p₄, hp₄, rfl⟩, h₄⟩⟩
      exact ⟨h, ⟨p₁, hp₁, h₁⟩, ⟨p₂, hp₂, h₂⟩, ⟨p₃, hp₃, h₃⟩, ⟨p₄, hp₄, h₄⟩⟩
    · rintro ⟨-, ⟨p₁, hp₁, h₁⟩, ⟨p₂, hp₂, h₂⟩, ⟨p₃, hp₃, h₃⟩, ⟨p₄, hp₄, h₄⟩⟩
      exact ⟨⟨p₁.1, ⟨p₁, hp₁, rfl⟩, h₁⟩, ⟨p₂.1, ⟨p₂, hp₂, rfl⟩, h₂⟩,
        ⟨p₃.2, ⟨p₃, hp₃, rfl⟩, h₃⟩, ⟨p₄.2, ⟨p₄, hp₄, rfl⟩, h₄⟩⟩

theorem mem_between_listMin_listMax {xs : List ℚ} {x : ℚ} (hx : x ∈ xs) :
    listMin xs ≤ x ∧ x ≤ listMax xs := by
  have hne : xs ≠ [] := List.ne_nil_of_mem hx
  exact ⟨(listMin_le_iff xs x hne).mpr ⟨x, hx, le_refl x⟩,
    (le_listMax_iff xs x hne).mpr ⟨x, hx, le_refl x⟩⟩

/-- Witness for C2 at a concrete polygon and box. -/
theorem overlaps_bbox_iff_aabb_intersects_witness :
    overlaps_bbox leftHalfPoly 0 0 4 4 = true ↔
      geomCoords leftHalfPoly ≠ [] ∧
      (∃ p ∈ geomCoords leftHalfPoly, 0 ≤ p.1) ∧
      (∃ p ∈ geomCoords leftHalfPoly, p.1 ≤ 4) ∧
      (∃ p ∈ geomCoords leftHalfPoly, 0 ≤ p.2) ∧
      (∃ p ∈ geomCoords leftHalfPoly, p.2 ≤ 4) :=
  overlaps_bbox_iff_aabb_intersects leftHalfPoly 0 0 4 4

/-- Claim C3, counterexample: a Point geometry lying strictly inside the
script's bounding box on which `_overlaps_bbox` nevertheless returns false
(a Point matches neither the Polygon nor the MultiPolygon branch, so the
vertex list stays empty and the function returns false). -/
theorem point_overlaps_bbox_cex :
    overlaps_bbox (Geometry.point (1257/100, 5568/100))
        BBOX_MIN_LON BBOX_MIN_LAT BBOX_MAX_LON BBOX_MAX_LAT = false ∧
    (BBOX_MIN_LON ≤ 1257/100 ∧ (1257/100 : ℚ) ≤ BBOX_MAX_LON ∧
      BBOX_MIN_LAT ≤ 5568/100 ∧ (5568/100 : ℚ) ≤ BBOX_MAX_LAT) := by
  refine ⟨rfl, ?_⟩
  norm_num [BBOX_MIN_LON, BBOX_MIN_LAT, BBOX_MAX_LON, BBOX_MAX_LAT]

/-- Claim C3, amended: `_overlaps_bbox` returns false on every Point
geometry, whatever the box; the inclusive point-in-box test the claim
describes is instead performed by the separate inline filter of step 4 of
`main`, which returns true iff the longitude lies in [min_lon, max_lon] and
the latitude lies in [min_lat, max_lat], boundaries inclusive. -/
theorem point_geometry_filtering (p : Coord) (a b c d lon lat : ℚ) :
    overlaps_bbox (Geometry.point p) a b c d = false ∧
    (placeInBbox lon lat a b c d = true ↔
      a ≤ lon ∧ lon ≤ c ∧ b ≤ lat ∧ lat ≤ d) := by
  constructor
  · rfl
  · simp [placeInBbox]

/-- Witness for the amended C3 at a concrete point and the script's box. -/
theorem point_geometry_filtering_witness :
    overlaps_bbox (Geometry.point (1257/100, 5568/100))
        BBOX_MIN_LON BBOX_MIN_LAT BBOX_MAX_LON BBOX_MAX_LAT = false ∧
    (placeInBbox (1257/100) (5568/100)
        BBOX_MIN_LON BBOX_MIN_LAT BBOX_MAX_LON BBOX_MAX_LAT = true ↔
      BBOX_MIN_LON ≤ 1257/100 ∧ (1257/100 : ℚ) ≤ BBOX_MAX_LON ∧
      BBOX_MIN_LAT ≤ 5568/100 ∧ (5568/100 : ℚ) ≤ BBOX_MAX_LAT) :=
  point_geometry_filtering (1257/100, 5568/100)
    BBOX_MIN_LON BBOX_MIN_LAT BBOX_MAX_LON BBOX_MAX_LAT (1257/100) (5568/100)

/-- Claim C5: the polygon list handed to the masking call and the feature
list serialized to the land output are built by the same predicate in the
same pass: the serialized features' geometries are element-for-element the
masking polygons, and both lists have the same length. -/
theorem clipLand_mask_serialize_consistent (feats : List Geometry) (a b c d : ℚ) :
    ((clipLand feats a b c d).2).map LandFeature.geometry =
      (clipLand feats a b c d).1 ∧
    ((clipLand feats a b c d).2).length = (clipLand feats a b c d).1.length := by
  have h : ((clipLand feats a b c d).2).map LandFeature.geometry =
      (clipLand feats a b c d).1 := by
    induction feats with
    | nil => rfl
    | cons g gs ih =>
        rcases Bool.eq_false_or_eq_true (overlaps_bbox g a b c d) with hov | hov <;>
          simp [clipLand, hov, ih]
  refine ⟨h, ?_⟩
  calc ((clipLand feats a b c d).2).length
      = (((clipLand feats a b c d).2).map LandFeature.geometry).length :=
        (List.length_map _ _).symm
    _ = (clipLand feats a b c d).1.length := by rw [h]

theorem sample_center_outside :
    (sampleShapes.any fun g =>
      pointInGeom (cellCenter nodataRaster.transform 0 1) g) = false := by
  have hc : cellCenter nodataRaster.transform 0 1 = (3, 3) := by
    norm_num [cellCenter, applyAffine, nodataRaster, sampleTransform, from_bounds]
  have e1 : edgeCrosses (3, 3) (0, 0) (2, 0) = false := by rfl
  have e1z : edgeCrosses (3, 3) (0 : ℚ × ℚ) (2, 0) = false := e1
  have e3 : edgeCrosses (3, 3) (2, 4) (0, 4) = false := by rfl
  have e2 : edgeCrosses (3, 3) (2, 0) (2, 4) = false := by
    simp [edgeCrosses]
    norm_num
  have e4 : edgeCrosses (3, 3) (0, 4) (0, 0) = false := by
    simp [edgeCrosses]
  have e4z : edgeCrosses (3, 3) (0, 4) (0 : ℚ × ℚ) = false := e4
  have hring : pointInRing (3, 3) leftHalfRing = false := by
    simp [pointInRing, ringEdges, leftHalfRing, List.countP_cons, List.countP_nil,
      e1, e1z, e2, e3, e4, e4z]
  have hpoly : pointInGeom (3, 3) leftHalfPoly = false := by
    simp [pointInGeom, leftHalfPoly, pointInRings, List.countP_cons,
      List.countP_nil, hring]
  simp only [hc]
  simp [sampleShapes, hpoly]

/-- Claim C1, counterexample: a raster whose declared nodata is 7 (not the
sentinel) with a cell holding 7 whose center lies outside every polygon —
the masking call still rewrites that cell to -9999.0, because the band is
read masked and `filled=True` fills all masked cells with the new nodata, so
the cell does not retain exactly its input value. -/
theorem mask_keep_outside_cex :
    rio_mask nodataRaster sampleShapes NODATA = .ok nodataMasked ∧
    (sampleShapes.any fun g =>
      pointInGeom (cellCenter nodataRaster.transform 0 1) g) = false ∧
    nodataMasked.data 0 1 = NODATA ∧
    nodataRaster.data 0 1 = 7 ∧ NODATA ≠ (7 : ℚ) := by
  refine ⟨rfl, sample_center_outside, ?_, rfl, by norm_num [NODATA]⟩
  show (if (sampleShapes.any fun g =>
        pointInGeom (cellCenter nodataRaster.transform 0 1) g)
      || isDeclaredNodata nodataRaster 0 1 then NODATA
    else nodataRaster.data 0 1) = NODATA
  rw [sample_center_outside]
  simp [isDeclaredNodata, nodataRaster]

/-- Claim C1, amended: with a non-empty polygon list the land-masking call
(invert=True, i.e. keep OUTSIDE) succeeds and returns a raster in which a
cell whose center lies inside some polygon holds the nodata sentinel
-9999.0; a cell whose center lies inside no polygon keeps exactly its input
value unless that value equals the raster's declared nodata, in which case
it is likewise rewritten to -9999.0 (already-nodata cells stay nodata,
recoded to the new sentinel). -/
theorem mask_keep_outside (r : Raster) (shapes : List Geometry)
    (h : shapes ≠ []) (row col : ℕ) :
    ∃ r', rio_mask r shapes NODATA = .ok r' ∧
      ((∃ g ∈ shapes, pointInGeom (cellCenter r.transform row col) g = true) →
        r'.data row col = NODATA) ∧
      (isDeclaredNodata r row col = true → r'.data row col = NODATA) ∧
      ((∀ g ∈ shapes, pointInGeom (cellCenter r.transform row col) g = false) →
        isDeclaredNodata r row col = false →
        r'.data row col = r.data row col) := by
  unfold rio_mask
  rw [if_neg h]
  refine ⟨_, rfl, ?_, ?_, ?_⟩
  · rintro ⟨g, hg, hpt⟩
    have hc : (shapes.any fun g => pointInGeom (cellCenter r.transform row col) g)
        = true := List.any_eq_true.mpr ⟨g, hg, hpt⟩
    simp [hc]
  · intro hd
    simp [hd]
  · intro hall hd
    have hc : (shapes.any fun g => pointInGeom (cellCenter r.transform row col) g)
        = false := by
      rw [List.any_eq_false]
      intro g hg
      simp [hall g hg]
    simp [hc, hd]

/-- Witness for the amended C1: a 2 × 2 raster over (0,0)–(4,4) masked by
the left-half square polygon. -/
theorem mask_keep_outside_witness :
    sampleShapes ≠ [] ∧
    (∃ r', rio_mask sampleRaster sampleShapes NODATA = .ok r' ∧
      ((∃ g ∈ sampleShapes,
          pointInGeom (cellCenter sampleRaster.transform 0 0) g = true) →
        r'.data 0 0 = NODATA) ∧
      (isDeclaredNodata sampleRaster 0 0 = true → r'.data 0 0 = NODATA) ∧
      ((∀ g ∈ sampleShapes,
          pointInGeom (cellCenter sampleRaster.transform 0 0) g = false) →
        isDeclaredNodata sampleRaster 0 0 = false →
        r'.data 0 0 = sampleRaster.data 0 0)) :=
  ⟨by simp [sampleShapes],
   mask_keep_outside sampleRaster sampleShapes (by simp [sampleShapes]) 0 0⟩

/-- Claim C7, counterexample: on an empty polygon list the masking call
fails with a ValueError raised inside the masking library, not with an
`EmptyPolygonSetError` (the script defines no such error). -/
theorem mask_empty_cex :
    rio_mask sampleRaster [] NODATA = .error .valueError ∧
    rio_mask sampleRaster [] NODATA ≠ .error .emptyPolygonSet := by
  refine ⟨rfl, ?_⟩
  simp [rio_mask]

/-- Claim C7, amended: masking an empty polygon list does fail rather than
silently producing an all-sea raster, but the failure is a ValueError raised
inside the masking library — an error unrelated to the spec's taxonomy; no
`EmptyPolygonSetError` is ever produced, on any input. -/
theorem mask_empty_value_error (r : Raster) (nd : ℚ) :
    rio_mask r [] nd = .error .valueError ∧
    ∀ shapes : List Geometry, rio_mask r shapes nd ≠ .error .emptyPolygonSet := by
  refine ⟨by simp [rio_mask], ?_⟩
  intro shapes h
  by_cases hs : shapes = []
  · subst hs
    simp [rio_mask] at h
  · simp [rio_mask, hs] at h

/-- Witness for the amended C7 at a concrete raster. -/
theorem mask_empty_value_error_witness :
    rio_mask sampleRaster [] NODATA = .error .valueError ∧
    rio_mask sampleRaster [] NODATA ≠ .error .emptyPolygonSet :=
  ⟨(mask_empty_value_error sampleRaster NODATA).1,
   (mask_empty_value_error sampleRaster NODATA).2 []⟩

/-- Claim C9: when the masking call succeeds, every corner of the output
grid under the output transform lies inside the axis-aligned extent spanned
by the corners of the input grid under the input transform — masking maps no
output cell outside the input's geography. -/
theorem mask_extent_contained (r r' : Raster) (shapes : List Geometry)
    (h : rio_mask r shapes NODATA = .ok r') :
    ∀ c ∈ rasterCorners r',
      listMin ((rasterCorners r).map Prod.fst) ≤ c.1 ∧
      c.1 ≤ listMax ((rasterCorners r).map Prod.fst) ∧
      listMin ((rasterCorners r).map Prod.snd) ≤ c.2 ∧
      c.2 ≤ listMax ((rasterCorners r).map Prod.snd) := by
  by_cases hs : shapes = []
  · subst hs
    simp [rio_mask] at h
  · unfold rio_mask at h
    rw [if_neg hs] at h
    have hr' : rasterCorners r' = rasterCorners r := by
      rw [← Except.ok.inj h]
      exact rfl
    rw [hr']
    intro c hc
    have h1 := mem_between_listMin_listMax (List.mem_map_of_mem Prod.fst hc)
    have h2 := mem_between_listMin_listMax (List.mem_map_of_mem Prod.snd hc)
    exact ⟨h1.1, h1.2, h2.1, h2.2⟩

/-- Witness for C9: the concrete masking run and its output raster. -/
theorem mask_extent_contained_witness :
    rio_mask sampleRaster sampleShapes NODATA = .ok sampleMasked ∧
    (∀ c ∈ rasterCorners sampleMasked,
      listMin ((rasterCorners sampleRaster).map Prod.fst) ≤ c.1 ∧
      c.1 ≤ listMax ((rasterCorners sampleRaster).map Prod.fst) ∧
      listMin ((rasterCorners sampleRaster).map Prod.snd) ≤ c.2 ∧
      c.2 ≤ listMax ((rasterCorners sampleRaster).map Prod.snd)) :=
  ⟨rfl, mask_extent_contained sampleRaster sampleMasked sampleShapes rfl⟩

/-- Claim C10: with a non-empty polygon list the masking call returns a
raster with exactly the input's width, height and affine transform — the
optional cropping described by the spec is never performed (the script
leaves `crop` at its default `False`). -/
theorem mask_preserves_grid (r : Raster) (shapes : List Geometry)
    (h : shapes ≠ []) :
    ∃ r', rio_mask r shapes NODATA = .ok r' ∧
      r'.width = r.width ∧ r'.height = r.height ∧
      r'.transform = r.transform := by
  unfold rio_mask
  rw [if_neg h]
  exact ⟨_, rfl, rfl, rfl, rfl⟩

/-- Witness for C10 at the concrete masking run. -/
theorem mask_preserves_grid_witness :
    sampleShapes ≠ [] ∧
    (∃ r', rio_mask sampleRaster sampleShapes NODATA = .ok r' ∧
      r'.width = sampleRaster.width ∧ r'.height = sampleRaster.height ∧
      r'.transform = sampleRaster.transform) :=
  ⟨by simp [sampleShapes],
   mask_preserves_grid sampleRaster sampleShapes (by simp [sampleShapes])⟩

theorem from_bounds_corner_map (west south east north : ℚ) (W H : ℕ)
    (hW : (W : ℚ) ≠ 0) (hH : (H : ℚ) ≠ 0) :
    applyAffine (from_bounds west south east north W H) 0 0 = (west, north) ∧
    applyAffine (from_bounds west south east north W H) (W : ℚ) 0 = (east, north) ∧
    applyAffine (from_bounds west south east north W H) 0 (H : ℚ) = (west, south) ∧
    applyAffine (from_bounds west south east north W H) (W : ℚ) (H : ℚ) = (east, south) := by
  refine ⟨?_, ?_, ?_, ?_⟩ <;>
    · simp only [applyAffine, from_bounds, Prod.mk.injEq]
      constructor <;> field_simp

/-- Claim C4: for a valid bounding box and positive destination size, the
destination transform computed by the resampling step
(`from_bounds(min_lon, min_lat, max_lon, max_lat, WIDTH, HEIGHT)`) maps the
four corners of the W × H pixel grid onto the four corners of the bounding
box to within 1e-6 degrees (in fact exactly). -/
theorem resampled_transform_corners (west south east north : ℚ) (W H : ℕ)
    (hW : 0 < W) (hH : 0 < H) (hlon : west < east) (hlat : south < north) :
    ∀ cp ∈ (gridCorners W H (from_bounds west south east north W H)).zip
        [(west, north), (east, north), (west, south), (east, south)],
      |cp.1.1 - cp.2.1| ≤ 1/1000000 ∧ |cp.1.2 - cp.2.2| ≤ 1/1000000 := by
  have hW' : (W : ℚ) ≠ 0 := Nat.cast_ne_zero.mpr hW.ne'
  have hH' : (H : ℚ) ≠ 0 := Nat.cast_ne_zero.mpr hH.ne'
  obtain ⟨h1, h2, h3, h4⟩ := from_bounds_corner_map west south east north W H hW' hH'
  intro cp hcp
  simp only [gridCorners, h1, h2, h3, h4, List.zip_cons_cons, List.zip_nil_right,
    List.mem_cons, List.not_mem_nil, or_false] at hcp
  rcases hcp with rfl | rfl | rfl | rfl <;> norm_num

/-- Witness for C4 at the script's bounding box and output size. -/
theorem resampled_transform_corners_witness :
    0 < WIDTH ∧ 0 < HEIGHT ∧
    BBOX_MIN_LON < BBOX_MAX_LON ∧ BBOX_MIN_LAT < BBOX_MAX_LAT ∧
    (∀ cp ∈ (gridCorners WIDTH HEIGHT
        (from_bounds BBOX_MIN_LON BBOX_MIN_LAT BBOX_MAX_LON BBOX_MAX_LAT
          WIDTH HEIGHT)).zip
        [(BBOX_MIN_LON, BBOX_MAX_LAT), (BBOX_MAX_LON, BBOX_MAX_LAT),
         (BBOX_MIN_LON, BBOX_MIN_LAT), (BBOX_MAX_LON, BBOX_MIN_LAT)],
      |cp.1.1 - cp.2.1| ≤ 1/1000000 ∧ |cp.1.2 - cp.2.2| ≤ 1/1000000) :=
  ⟨by decide, by decide,
   by norm_num [BBOX_MIN_LON, BBOX_MAX_LON],
   by norm_num [BBOX_MIN_LAT, BBOX_MAX_LAT],
   resampled_transform_corners BBOX_MIN_LON BBOX_MIN_LAT BBOX_MAX_LON BBOX_MAX_LAT
     WIDTH HEIGHT (by decide) (by decide)
     (by norm_num [BBOX_MIN_LON, BBOX_MAX_LON])
     (by norm_num [BBOX_MIN_LAT, BBOX_MAX_LAT])⟩

/-- Claim C6, amended: when the WCS response has a status other than 200 or
an error-document content type (contains "xml", case-insensitively), the run
terminates with a nonzero exit status before any output is written, with a
diagnostic carrying the HTTP status code and the first 500 characters of the
response body (printed as a header line followed by the excerpt). -/
theorem wcs_error_aborts (resp : HttpResponse) (working : Raster)
    (gshhg : List Geometry) (pl : List NEFeature) (a b c d : ℚ)
    (h : resp.status ≠ 200 ∨ containsXml resp.contentType = true) :
    (mainRun resp working gshhg pl a b c d).exitCode ≠ 0 ∧
    (mainRun resp working gshhg pl a b c d).outputs = [] ∧
    (mainRun resp working gshhg pl a b c d).diagnostic =
      some ("WCS error (HTTP " ++ toString resp.status ++ "):\n"
        ++ resp.body.take 500) := by
  have hw : wcsFailed resp = true := by
    simp only [wcsFailed, Bool.or_eq_true, decide_eq_true_eq]
    exact h
  simp [mainRun, hw, wcsErrorMsg]

/-- Witness for the amended C6: a concrete 404/XML response. -/
theorem wcs_error_aborts_witness :
    (respXml.status ≠ 200 ∨ containsXml respXml.contentType = true) ∧
    ((mainRun respXml sampleRaster [] [] 0 0 1 1).exitCode ≠ 0 ∧
     (mainRun respXml sampleRaster [] [] 0 0 1 1).outputs = [] ∧
     (mainRun respXml sampleRaster [] [] 0 0 1 1).diagnostic =
       some ("WCS error (HTTP " ++ toString respXml.status ++ "):\n"
         ++ respXml.body.take 500)) :=
  ⟨Or.inl (by decide),
   wcs_error_aborts respXml sampleRaster [] [] 0 0 1 1 (Or.inl (by decide))⟩

/-- Claim C6, counterexample to "one-line diagnostic": at a concrete failing
response the diagnostic actually emitted is the header line followed by the
body excerpt on further lines — the message always contains a newline, so it
is never a one-line diagnostic. -/
theorem wcs_diagnostic_multiline_cex :
    (mainRun respXml sampleRaster [] [] 0 0 1 1).diagnostic =
      some (wcsErrorMsg respXml) ∧
    '\n' ∈ (wcsErrorMsg respXml).data := by
  refine ⟨rfl, ?_⟩
  simp only [wcsErrorMsg, String.data_append, List.mem_append]
  exact Or.inl (Or.inr (by decide))

theorem buildPlaces_sample_eval :
    buildPlaces BBOX_MIN_LON BBOX_MIN_LAT BBOX_MAX_LON BBOX_MAX_LAT [sampleNE]
      = [samplePlace] := by
  have hin : placeInBbox sampleNE.lon sampleNE.lat
      BBOX_MIN_LON BBOX_MIN_LAT BBOX_MAX_LON BBOX_MAX_LAT = true := by
    simp only [placeInBbox, decide_eq_true_eq, sampleNE]
    norm_num [BBOX_MIN_LON, BBOX_MIN_LAT, BBOX_MAX_LON, BBOX_MAX_LAT]
  simp [buildPlaces, List.filter, hin, samplePlace]

/-- Claim C8, amended: every feature emitted to the populated-places output
has exactly the property keys {name, pop_max, pop_min, adm0_a3, featurecla,
scalerank}, in that order — a fixed schema, the same for every feature (the
spec's key names country_code, feature_class and scale_rank do not occur). -/
theorem places_fixed_schema (a b c d : ℚ) (feats : List NEFeature)
    (pf : PlaceFeature) (h : pf ∈ buildPlaces a b c d feats) :
    pf.properties.map Prod.fst =
      ["name", "pop_max", "pop_min", "adm0_a3", "featurecla", "scalerank"] := by
  simp only [buildPlaces, List.mem_map] at h
  obtain ⟨f, -, rfl⟩ := h
  rfl

/-- Witness for the amended C8: the concrete feature emitted for a record
inside the bounding box. -/
theorem places_fixed_schema_witness :
    samplePlace ∈
      buildPlaces BBOX_MIN_LON BBOX_MIN_LAT BBOX_MAX_LON BBOX_MAX_LAT [sampleNE] ∧
    samplePlace.properties.map Prod.fst =
      ["name", "pop_max", "pop_min", "adm0_a3", "featurecla", "scalerank"] := by
  have hmem : samplePlace ∈
      buildPlaces BBOX_MIN_LON BBOX_MIN_LAT BBOX_MAX_LON BBOX_MAX_LAT [sampleNE] := by
    rw [buildPlaces_sample_eval]
    exact List.mem_singleton_self _
  exact ⟨hmem, places_fixed_schema BBOX_MIN_LON BBOX_MIN_LAT BBOX_MAX_LON
    BBOX_MAX_LAT [sampleNE] samplePlace hmem⟩

/-- Claim C8, counterexample: the emitted property keys at a concrete
in-box feature are {name, pop_max, pop_min, adm0_a3, featurecla, scalerank},
which is not the claimed schema {name, pop_max, pop_min, country_code,
feature_class, scale_rank}. -/
theorem places_schema_cex :
    ((buildPlaces BBOX_MIN_LON BBOX_MIN_LAT BBOX_MAX_LON BBOX_MAX_LAT
        [sampleNE]).map (fun pf => pf.properties.map Prod.fst)) =
      [["name", "pop_max", "pop_min", "adm0_a3", "featurecla", "scalerank"]] ∧
    (["name", "pop_max", "pop_min", "adm0_a3", "featurecla", "scalerank"]
        : List String) ≠
      ["name", "pop_max", "pop_min", "country_code", "feature_class",
        "scale_rank"] := by
  refine ⟨?_, by decide⟩
  rw [buildPlaces_sample_eval]
  rfl
